import Mathlib

/-!
# LogLens theme toggle (`src/app/js/index.js`)

A shallow embedding of the theme-toggle script: the browser state the script
reads and writes (root `data-theme` attribute, `localStorage`, the toggle
button with its icon, the registered event listeners) is an explicit record,
and every function of the script is a function on that record.  A JavaScript
exception is modelled by the `Completion.thrown` outcome, which keeps the
state reached at the point of the throw.  Storage can fail in two ways: access
to it can throw altogether (storage blocked), and a write to a readable store
can be refused for lack of room (`QuotaExceededError`).
-/

namespace LogLens

/-! ## Browser state -/

/-- The key/value pairs of a storage area, in insertion order. -/
abbrev Store := List (String × String)

/-- `Storage.getItem`: the value stored under `key`, `none` standing for `null`. -/
def getItem : Store → String → Option String
  | [], _ => none
  | (k, v) :: rest, key => if k = key then some v else getItem rest key

/-- `Storage.setItem` on the pairs: overwrite the value of an existing key, or
add the pair. -/
def setItem : Store → String → String → Store
  | [], key, value => [(key, value)]
  | (k, v) :: rest, key, value =>
      if k = key then (key, value) :: rest else (k, v) :: setItem rest key value

/-- The room a store takes: the characters of all its keys and values. -/
def storeSize : Store → Nat
  | [] => 0
  | (k, v) :: rest => k.length + v.length + storeSize rest

/-- A readable storage area: its pairs and the room the browser grants it (0 in
a browser that lets pages read storage but never write it). -/
structure Storage where
  items : Store
  quota : Nat
  deriving DecidableEq

/-- The element matched by `.theme-icon`: the two properties the script writes. -/
structure IconEl where
  innerHTML : String
  transform : String
  deriving DecidableEq

/-- The element with id `theme-toggle`: its first `.theme-icon` descendant (if
any) and the number of `click` listeners the script has attached to it. -/
structure Button where
  icon : Option IconEl
  clickListeners : Nat
  deriving DecidableEq

/-- The part of the browser the script touches.
* `dataTheme`: the `data-theme` attribute of `document.documentElement`
  (`none`: attribute absent, what `getAttribute` reports as `null`);
* `localStorage`: the storage area, `none` when any access to it throws
  (storage disabled or blocked);
* `toggle`: what `document.getElementById('theme-toggle')` finds;
* `domContentLoadedListeners`: how many `DOMContentLoaded` listeners the
  script has registered on `document`. -/
structure Page where
  dataTheme : Option String
  localStorage : Option Storage
  toggle : Option Button
  domContentLoadedListeners : Nat
  deriving DecidableEq

/-- How a piece of script ends: normally, or by an uncaught exception.  Both
carry the page state reached. -/
inductive Completion where
  | normal (page : Page)
  | thrown (page : Page)
  deriving DecidableEq

/-- The page state a completion ends in. -/
def Completion.page : Completion → Page
  | .normal p => p
  | .thrown p => p

/-- Whether the script ran to its end without an exception. -/
def Completion.isNormal : Completion → Bool
  | .normal _ => true
  | .thrown _ => false

/-- Sequencing of statements: an exception skips everything after it. -/
def Completion.andThen (c : Completion) (f : Page → Completion) : Completion :=
  match c with
  | .normal p => f p
  | .thrown p => .thrown p

/-! ## The script -/

/-- Line 3: `const STORAGE_KEY = 'loglens-theme'`. -/
def STORAGE_KEY : String := "loglens-theme"

/-- The glyph written when dark is active (line 19). -/
def sunGlyph : String := "☀️"

/-- The glyph written when light is active (line 19). -/
def moonGlyph : String := "🌙"

/-- Lines 16 and 27:
`document.documentElement.getAttribute('data-theme') === 'dark'`. -/
def isDark (p : Page) : Bool := decide (p.dataTheme = some "dark")

/-- The call `localStorage.getItem(key)`: throws when storage is blocked,
otherwise yields the stored value or `null`. -/
def localStorageGetItem (key : String) (p : Page) : Except Page (Option String) :=
  match p.localStorage with
  | none => .error p
  | some storage => .ok (getItem storage.items key)

/-- The call `localStorage.setItem(key, value)`: throws when storage is
blocked, throws `QuotaExceededError` and stores nothing when the store with
the new pair would not fit the quota, and otherwise stores the pair. -/
def localStorageSetItem (key value : String) (p : Page) : Completion :=
  match p.localStorage with
  | none => .thrown p
  | some storage =>
    if storeSize (setItem storage.items key value) ≤ storage.quota then
      .normal { p with localStorage := some { storage with
        items := setItem storage.items key value } }
    else .thrown p

/-- Lines 15-22, `updateIcon`, for the `btn` found by the enclosing handler.
With no `.theme-icon` descendant nothing is written.  (The function only
exists once `btn` was found; on a page without the button it is the identity.) -/
def updateIcon (p : Page) : Completion :=
  match p.toggle with
  | none => .normal p
  | some btn =>
    match btn.icon with
    | none => .normal p
    | some iconEl =>
      .normal { p with toggle := some { btn with icon := some { iconEl with
        innerHTML := if isDark p then sunGlyph else moonGlyph
        transform := if isDark p then "rotate(360deg)" else "rotate(0deg)" } } }

/-- Lines 26-36, the `click` listener: the attribute is written first, then
storage, then the icon is redrawn. -/
def onToggleClick (p : Page) : Completion :=
  if isDark p then
    (localStorageSetItem STORAGE_KEY "light" { p with dataTheme := none }).andThen updateIcon
  else
    (localStorageSetItem STORAGE_KEY "dark" { p with dataTheme := some "dark" }).andThen
      updateIcon

/-- Line 26, `btn.addEventListener('click', ...)`. -/
def addClickListener (p : Page) : Page :=
  { p with toggle := p.toggle.map fun btn =>
      { btn with clickListeners := btn.clickListeners + 1 } }

/-- Lines 11-37, the `DOMContentLoaded` listener. -/
def initUI (p : Page) : Completion :=
  match p.toggle with
  | none => .normal p
  | some _ => (updateIcon p).andThen fun q => .normal (addClickListener q)

/-- Lines 6-9: read the saved theme and apply it before paint. -/
def initEarly (p : Page) : Completion :=
  match localStorageGetItem STORAGE_KEY p with
  | .error q => .thrown q
  | .ok saved =>
    if saved = some "dark" then .normal { p with dataTheme := some "dark" } else .normal p

/-- Lines 2-38, the whole immediately-invoked `initTheme`: the early apply,
then the registration of the `DOMContentLoaded` listener. -/
def initTheme (p : Page) : Completion :=
  (initEarly p).andThen fun q =>
    .normal { q with domContentLoadedListeners := q.domContentLoadedListeners + 1 }

/-! ## The browser around the script -/

/-- Event dispatch: each of the `n` registered copies of `handler` runs in
turn; an exception in one listener is reported and the next one still runs. -/
def runListeners (handler : Page → Completion) : Nat → Page → Page
  | 0, p => p
  | n + 1, p => runListeners handler n (handler p).page

/-- Whether all `n` listeners of a dispatch ran to their end. -/
def listenersComplete (handler : Page → Completion) : Nat → Page → Bool
  | 0, _ => true
  | n + 1, p => (handler p).isNormal && listenersComplete handler n (handler p).page

/-- One user click on the toggle: the attached `click` listeners run. -/
def click (p : Page) : Page :=
  match p.toggle with
  | none => p
  | some btn => runListeners onToggleClick btn.clickListeners p

/-- Whether a click on the page `p` completes: no listener of it throws. -/
def clickCompletes (p : Page) : Bool :=
  match p.toggle with
  | none => true
  | some btn => listenersComplete onToggleClick btn.clickListeners p

/-- The state after `n` successive clicks. -/
def clicks : Nat → Page → Page
  | 0, p => p
  | n + 1, p => click (clicks n p)

/-- The state after `n` successive runs of the click listener itself. -/
def handlerRuns : Nat → Page → Page
  | 0, p => p
  | n + 1, p => (onToggleClick (handlerRuns n p)).page

/-- The `DOMContentLoaded` event: the registered listeners run. -/
def domContentLoaded (p : Page) : Page :=
  runListeners initUI p.domContentLoadedListeners p

/-- A fresh page load: the document is rebuilt from the served markup
(`served`: the toggle button, if the page has one, with its icon, if it has
one), so the root attribute is absent and no listener is registered; storage
is what it was. -/
def freshLoad (storage : Option Storage) (served : Option (Option IconEl)) : Page :=
  { dataTheme := none
    localStorage := storage
    toggle := served.map fun icon => { icon := icon, clickListeners := 0 }
    domContentLoadedListeners := 0 }

/-- Reloading the page `p` is showing. -/
def reload (served : Option (Option IconEl)) (p : Page) : Page :=
  freshLoad p.localStorage served

/-! ## Observations used in the statements -/

/-- The value stored under `'loglens-theme'` (`none`: no value, or storage
inaccessible). -/
def storedTheme (p : Page) : Option String :=
  p.localStorage.bind fun storage => getItem storage.items STORAGE_KEY

/-- The glyph the icon shows (`none`: no button or no icon element). -/
def iconGlyph (p : Page) : Option String :=
  (p.toggle.bind fun btn => btn.icon).map fun iconEl => iconEl.innerHTML

/-- The icon's inline transform (`none`: no button or no icon element). -/
def iconTransform (p : Page) : Option String :=
  (p.toggle.bind fun btn => btn.icon).map fun iconEl => iconEl.transform

/-- The number of `click` listeners attached to the toggle (0 without one). -/
def clickListenerCount (p : Page) : Nat :=
  match p.toggle with
  | none => 0
  | some btn => btn.clickListeners

/-- The icon agrees with the applied theme: sun exactly when the root
attribute is `dark`, moon otherwise. -/
def IconConsistent (p : Page) : Prop :=
  (iconGlyph p = some sunGlyph ↔ p.dataTheme = some "dark") ∧
  (p.dataTheme ≠ some "dark" → iconGlyph p = some moonGlyph)

/-- The toggle button and its `.theme-icon` descendant are both present. -/
def HasIcon (p : Page) : Prop :=
  ∃ btn iconEl, p.toggle = some btn ∧ btn.icon = some iconEl

/-! ## Concrete pages -/

/-- The page an empty-storage first visit shows after the script ran:
button, moon icon, one listener, plenty of room in storage. -/
def lightPage : Page :=
  { dataTheme := none
    localStorage := some { items := [], quota := 5000000 }
    toggle := some { icon := some { innerHTML := "🌙", transform := "rotate(0deg)" },
                     clickListeners := 1 }
    domContentLoadedListeners := 1 }

/-- The same first visit in a browser that lets the page read storage but
grants it no room to write. -/
def fullStorePage : Page :=
  { dataTheme := none
    localStorage := some { items := [], quota := 0 }
    toggle := some { icon := some { innerHTML := "🌙", transform := "rotate(0deg)" },
                     clickListeners := 1 }
    domContentLoadedListeners := 1 }

/-- A page whose attribute and stored value disagree and are both outside the
two expected values. -/
def strayPage : Page :=
  { dataTheme := some "Dark"
    localStorage := some
      { items := [("other-key", "x"), ("loglens-theme", "sepia")], quota := 5000000 }
    toggle := some { icon := some { innerHTML := "?", transform := "" },
                     clickListeners := 1 }
    domContentLoadedListeners := 1 }

/-- A dark page whose stored value says `light`. -/
def mismatchedPage : Page :=
  { dataTheme := some "dark"
    localStorage := some { items := [("loglens-theme", "light")], quota := 5000000 }
    toggle := some { icon := some { innerHTML := "🌙", transform := "rotate(0deg)" },
                     clickListeners := 1 }
    domContentLoadedListeners := 1 }

/-- A page that serves the toggle button without an icon inside. -/
def iconlessPage : Page :=
  { dataTheme := none
    localStorage := some { items := [("loglens-theme", "light")], quota := 5000000 }
    toggle := some { icon := none, clickListeners := 1 }
    domContentLoadedListeners := 1 }

/-- A page variant without the toggle button, dark theme stored and applied. -/
def togglelessPage : Page :=
  { dataTheme := some "dark"
    localStorage := some { items := [("loglens-theme", "dark")], quota := 5000000 }
    toggle := none
    domContentLoadedListeners := 1 }

/-- A first load with `dark` stored and the moon served as icon markup. -/
def darkStoredLoad : Page :=
  freshLoad (some { items := [("loglens-theme", "dark")], quota := 5000000 })
    (some (some { innerHTML := "🌙", transform := "rotate(0deg)" }))

/-- A first load, already dark after the early apply, whose served icon
markup is not one of the two glyphs. -/
def staleIconLoad : Page :=
  { dataTheme := some "dark"
    localStorage := some { items := [("loglens-theme", "dark")], quota := 5000000 }
    toggle := some { icon := some { innerHTML := "?", transform := "" },
                     clickListeners := 0 }
    domContentLoadedListeners := 1 }

/-- A page about to fire `DOMContentLoaded` (nothing stored, moon served, no
click listener yet) in a browser that grants storage no room to write. -/
def fullStoreReady : Page :=
  { dataTheme := none
    localStorage := some { items := [], quota := 0 }
    toggle := some { icon := some { innerHTML := "🌙", transform := "rotate(0deg)" },
                     clickListeners := 0 }
    domContentLoadedListeners := 1 }

/-- A first load with nothing stored, the moon served, in a browser that
grants storage no room to write. -/
def fullStoreLoad : Page :=
  freshLoad (some { items := [], quota := 0 })
    (some (some { innerHTML := "🌙", transform := "rotate(0deg)" }))

/-- A first load in a browser that blocks storage access. -/
def blockedLoad : Page :=
  freshLoad none (some (some { innerHTML := "🌙", transform := "rotate(0deg)" }))

/-! ## Storage lemmas -/

lemma getItem_setItem_self (st : Store) (key value : String) :
    getItem (setItem st key value) key = some value := by
  induction st with
  | nil => simp [setItem, getItem]
  | cons kv rest ih =>
    obtain ⟨k, v⟩ := kv
    by_cases h : k = key
    · simp [setItem, getItem, h]
    · simp [setItem, getItem, h, ih]

lemma getItem_setItem_other (st : Store) (key value other : String) (h : key ≠ other) :
    getItem (setItem st key value) other = getItem st other := by
  induction st with
  | nil => simp [setItem, getItem, h]
  | cons kv rest ih =>
    obtain ⟨k, v⟩ := kv
    by_cases hk : k = key
    · subst hk
      simp [setItem, getItem, h]
    · by_cases ho : k = other
      · subst ho
        simp [setItem, getItem, hk]
      · simp [setItem, getItem, hk, ho, ih]

lemma sunGlyph_ne_moonGlyph : sunGlyph ≠ moonGlyph := by decide

/-- What a call of `setItem` leaves: the page with the pair stored when the
call returns, the page as it was when it throws. -/
lemma localStorageSetItem_cases (key value : String) (p : Page) :
    (∃ storage, p.localStorage = some storage ∧
      localStorageSetItem key value p = .normal { p with localStorage := some { storage with
        items := setItem storage.items key value } }) ∨
    localStorageSetItem key value p = .thrown p := by
  unfold localStorageSetItem
  cases h : p.localStorage with
  | none => exact Or.inr rfl
  | some storage =>
    by_cases hr : storeSize (setItem storage.items key value) ≤ storage.quota
    · exact Or.inl ⟨storage, rfl, by simp [hr]⟩
    · exact Or.inr (by simp [hr])

lemma localStorageSetItem_frame (key value : String) (p : Page) :
    (localStorageSetItem key value p).page.dataTheme = p.dataTheme ∧
    (localStorageSetItem key value p).page.toggle = p.toggle ∧
    (localStorageSetItem key value p).page.domContentLoadedListeners =
      p.domContentLoadedListeners := by
  rcases localStorageSetItem_cases key value p with ⟨storage, _, h⟩ | h <;>
    rw [h] <;> exact ⟨rfl, rfl, rfl⟩

lemma localStorageSetItem_storedTheme (value : String) (p : Page) :
    storedTheme (localStorageSetItem STORAGE_KEY value p).page =
      if (localStorageSetItem STORAGE_KEY value p).isNormal then some value
      else storedTheme p := by
  rcases localStorageSetItem_cases STORAGE_KEY value p with ⟨storage, _, h⟩ | h
  · rw [h]
    simp [Completion.page, Completion.isNormal, storedTheme, getItem_setItem_self]
  · rw [h]
    simp [Completion.page, Completion.isNormal]

/-- Whether a write succeeds depends only on the storage it is made to. -/
lemma localStorageSetItem_congr (key value : String) (a b : Page)
    (h : a.localStorage = b.localStorage) :
    (localStorageSetItem key value a).page.localStorage =
      (localStorageSetItem key value b).page.localStorage ∧
    (localStorageSetItem key value a).isNormal = (localStorageSetItem key value b).isNormal := by
  unfold localStorageSetItem
  rw [← h]
  cases a.localStorage with
  | none => exact ⟨h, rfl⟩
  | some storage =>
    by_cases hr : storeSize (setItem storage.items key value) ≤ storage.quota
    · simp [hr, Completion.page, Completion.isNormal]
    · simp [hr, Completion.page, Completion.isNormal, h]

/-! ## What one run of each function does -/

lemma completion_of_eq_normal (c : Completion) (q : Page) (h : c = .normal q) :
    c.isNormal = true ∧ c.page = q := by
  subst h
  exact ⟨rfl, rfl⟩

lemma completion_eq_normal (c : Completion) (h : c.isNormal = true) : c = .normal c.page := by
  cases c with
  | normal p => rfl
  | thrown p => simp [Completion.isNormal] at h

lemma updateIcon_normal (p : Page) : ∃ q, updateIcon p = .normal q := by
  unfold updateIcon
  split
  · exact ⟨_, rfl⟩
  · split <;> exact ⟨_, rfl⟩

lemma updateIcon_isNormal (p : Page) : (updateIcon p).isNormal = true := by
  obtain ⟨q, hq⟩ := updateIcon_normal p
  rw [hq]
  rfl

lemma updateIcon_dataTheme (p : Page) : (updateIcon p).page.dataTheme = p.dataTheme := by
  unfold updateIcon
  split
  · rfl
  · split <;> rfl

lemma updateIcon_localStorage (p : Page) :
    (updateIcon p).page.localStorage = p.localStorage := by
  unfold updateIcon
  split
  · rfl
  · split <;> rfl

lemma updateIcon_listeners (p : Page) :
    clickListenerCount (updateIcon p).page = clickListenerCount p ∧
    (updateIcon p).page.domContentLoadedListeners = p.domContentLoadedListeners := by
  unfold updateIcon
  split
  · exact ⟨rfl, rfl⟩
  · next btn hb =>
    split
    · exact ⟨rfl, rfl⟩
    · simp [clickListenerCount, Completion.page, hb]

lemma updateIcon_hasIcon (p : Page) (h : HasIcon p) : HasIcon (updateIcon p).page := by
  obtain ⟨btn, iconEl, hb, hi⟩ := h
  simp [updateIcon, hb, hi, Completion.page, HasIcon]

lemma updateIcon_glyph (p : Page) (h : HasIcon p) :
    iconGlyph (updateIcon p).page = some (if isDark p then sunGlyph else moonGlyph) := by
  obtain ⟨btn, iconEl, hb, hi⟩ := h
  simp [updateIcon, hb, hi, Completion.page, iconGlyph]

lemma updateIcon_transform (p : Page) (h : HasIcon p) :
    iconTransform (updateIcon p).page =
      some (if isDark p then "rotate(360deg)" else "rotate(0deg)") := by
  obtain ⟨btn, iconEl, hb, hi⟩ := h
  simp [updateIcon, hb, hi, Completion.page, iconTransform]

/-- A glyph computed from the attribute is consistent with it. -/
lemma iconConsistent_of_glyph (p : Page)
    (h : iconGlyph p = some (if isDark p then sunGlyph else moonGlyph)) :
    IconConsistent p := by
  unfold IconConsistent
  by_cases hd : p.dataTheme = some "dark"
  · simp [h, isDark, hd]
  · have := sunGlyph_ne_moonGlyph
    simp [h, isDark, hd]
    exact fun e => this e.symm

lemma updateIcon_consistent (p : Page) (h : HasIcon p) :
    IconConsistent (updateIcon p).page := by
  apply iconConsistent_of_glyph
  rw [updateIcon_glyph p h]
  simp [isDark, updateIcon_dataTheme]

/-- The value the click listener hands to `setItem`. -/
lemma onToggleClick_eq (p : Page) :
    onToggleClick p =
      (localStorageSetItem STORAGE_KEY (if isDark p then "light" else "dark")
        { p with dataTheme := if isDark p then none else some "dark" }).andThen updateIcon := by
  unfold onToggleClick
  cases isDark p <;> simp

lemma andThen_updateIcon_page (c : Completion) :
    (c.andThen updateIcon).page.dataTheme = c.page.dataTheme ∧
    (c.andThen updateIcon).page.localStorage = c.page.localStorage ∧
    (c.andThen updateIcon).isNormal = c.isNormal ∧
    clickListenerCount (c.andThen updateIcon).page = clickListenerCount c.page ∧
    (HasIcon c.page → HasIcon (c.andThen updateIcon).page) := by
  cases c with
  | normal p =>
    exact ⟨updateIcon_dataTheme p, updateIcon_localStorage p, updateIcon_isNormal p,
      (updateIcon_listeners p).1, updateIcon_hasIcon p⟩
  | thrown p => exact ⟨rfl, rfl, rfl, rfl, id⟩

/-- Every run of the click listener flips the attribute, whether or not the
write that follows succeeds. -/
lemma onToggleClick_dataTheme (p : Page) :
    (onToggleClick p).page.dataTheme = if isDark p then none else some "dark" := by
  rw [onToggleClick_eq, (andThen_updateIcon_page _).1, (localStorageSetItem_frame _ _ _).1]

/-- The listener ends normally exactly when its write is accepted. -/
lemma onToggleClick_isNormal (p : Page) :
    (onToggleClick p).isNormal =
      (localStorageSetItem STORAGE_KEY (if isDark p then "light" else "dark") p).isNormal := by
  rw [onToggleClick_eq, (andThen_updateIcon_page _).2.2.1]
  exact (localStorageSetItem_congr STORAGE_KEY _
    { p with dataTheme := if isDark p then none else some "dark" } p rfl).2

lemma onToggleClick_localStorage (p : Page) :
    (onToggleClick p).page.localStorage =
      (localStorageSetItem STORAGE_KEY (if isDark p then "light" else "dark") p).page.localStorage := by
  rw [onToggleClick_eq, (andThen_updateIcon_page _).2.1]
  exact (localStorageSetItem_congr STORAGE_KEY _
    { p with dataTheme := if isDark p then none else some "dark" } p rfl).1

/-- The stored value after a run of the listener: the new value when the run
completed, the old one when the write threw. -/
lemma onToggleClick_storedTheme (p : Page) :
    storedTheme (onToggleClick p).page =
      if (onToggleClick p).isNormal then some (if isDark p then "light" else "dark")
      else storedTheme p := by
  have h := localStorageSetItem_storedTheme (if isDark p then "light" else "dark") p
  rw [onToggleClick_isNormal]
  rw [← h]
  simp only [storedTheme, onToggleClick_localStorage]

lemma onToggleClick_hasIcon (p : Page) (h : HasIcon p) : HasIcon (onToggleClick p).page := by
  rw [onToggleClick_eq]
  apply (andThen_updateIcon_page _).2.2.2.2
  obtain ⟨btn, iconEl, hb, hi⟩ := h
  exact ⟨btn, iconEl, by rw [(localStorageSetItem_frame _ _ _).2.1]; exact hb, hi⟩

lemma onToggleClick_listeners (p : Page) :
    clickListenerCount (onToggleClick p).page = clickListenerCount p := by
  rw [onToggleClick_eq, (andThen_updateIcon_page _).2.2.2.1]
  simp only [clickListenerCount, (localStorageSetItem_frame _ _ _).2.1]

/-- A run of the listener that completes has redrawn the icon. -/
lemma onToggleClick_consistent (p : Page) (hi : HasIcon p)
    (hn : (onToggleClick p).isNormal = true) : IconConsistent (onToggleClick p).page := by
  rw [onToggleClick_eq] at hn ⊢
  have hf := localStorageSetItem_frame STORAGE_KEY (if isDark p then "light" else "dark")
    { p with dataTheme := if isDark p then none else some "dark" }
  cases hc : localStorageSetItem STORAGE_KEY (if isDark p then "light" else "dark")
      { p with dataTheme := if isDark p then none else some "dark" } with
  | normal q =>
    rw [hc] at hf
    obtain ⟨btn, iconEl, hb, hic⟩ := hi
    exact updateIcon_consistent q ⟨btn, iconEl, hf.2.1.trans hb, hic⟩
  | thrown q =>
    rw [hc] at hn
    simp [Completion.andThen, Completion.isNormal] at hn

/-- The storage a run of the listener leaves, and whether it completes, depend
only on the storage and the attribute it starts from. -/
lemma onToggleClick_congr (a b : Page) (hl : a.localStorage = b.localStorage)
    (hd : a.dataTheme = b.dataTheme) :
    (onToggleClick a).page.localStorage = (onToggleClick b).page.localStorage ∧
    (onToggleClick a).isNormal = (onToggleClick b).isNormal := by
  have hk : isDark a = isDark b := by simp [isDark, hd]
  rw [onToggleClick_localStorage, onToggleClick_localStorage, onToggleClick_isNormal,
    onToggleClick_isNormal, hk]
  exact localStorageSetItem_congr _ _ a b hl

/-! ## Repeated runs of the click listener -/

/-- After `n` runs from a non-dark attribute, the attribute is `dark` for odd
`n`; for even `n` it is what it was (`n = 0`) or absent. -/
lemma handlerRuns_dataTheme (p : Page) (hlight : p.dataTheme ≠ some "dark") (n : Nat) :
    (handlerRuns n p).dataTheme =
      if n % 2 = 1 then some "dark" else if n = 0 then p.dataTheme else none := by
  induction n with
  | zero => rfl
  | succ n ih =>
    show (onToggleClick (handlerRuns n p)).page.dataTheme = _
    rw [onToggleClick_dataTheme]
    rcases Nat.mod_two_eq_zero_or_one n with h0 | h1
    · have hs : (n + 1) % 2 = 1 := by omega
      have hd : isDark (handlerRuns n p) = false := by
        have h0' : ¬ n % 2 = 1 := by omega
        rw [isDark, ih, if_neg h0']
        by_cases hn : n = 0
        · simp [hn, hlight]
        · simp [hn]
      simp [hd, hs]
    · have hs : ¬ (n + 1) % 2 = 1 := by omega
      have hd : isDark (handlerRuns n p) = true := by
        rw [isDark, ih, if_pos h1]
        simp
      simp [hd, hs]

/-- From a non-dark attribute, the run number `n + 1` finds the page dark
exactly when `n` is odd. -/
lemma handlerRuns_isDark (p : Page) (hlight : p.dataTheme ≠ some "dark") (n : Nat) :
    isDark (handlerRuns n p) = decide (n % 2 = 1) := by
  rw [isDark, handlerRuns_dataTheme p hlight n]
  by_cases h1 : n % 2 = 1
  · simp [h1]
  · by_cases h0 : n = 0
    · simp [h0, hlight]
    · simp [h1, h0]

/-! ## Event dispatch -/

lemma runListeners_onToggleClick_frame (n : Nat) (p : Page) :
    clickListenerCount (runListeners onToggleClick n p) = clickListenerCount p ∧
    (HasIcon p → HasIcon (runListeners onToggleClick n p)) := by
  induction n generalizing p with
  | zero => exact ⟨rfl, id⟩
  | succ n ih =>
    obtain ⟨h1, h2⟩ := ih (onToggleClick p).page
    exact ⟨h1.trans (onToggleClick_listeners p), fun h => h2 (onToggleClick_hasIcon p h)⟩

/-- A dispatch with at least one listener, all of which complete, ends with the
icon redrawn. -/
lemma runListeners_onToggleClick_consistent (n : Nat) (p : Page) (hi : HasIcon p)
    (hc : listenersComplete onToggleClick (n + 1) p = true) :
    IconConsistent (runListeners onToggleClick (n + 1) p) := by
  induction n generalizing p with
  | zero =>
    simp only [listenersComplete, Bool.and_true] at hc
    exact onToggleClick_consistent p hi hc
  | succ n ih =>
    rw [listenersComplete, Bool.and_eq_true] at hc
    exact ih (onToggleClick p).page (onToggleClick_hasIcon p hi) hc.2

lemma click_frame (p : Page) :
    clickListenerCount (click p) = clickListenerCount p ∧ (HasIcon p → HasIcon (click p)) := by
  unfold click
  split
  · exact ⟨rfl, id⟩
  · exact runListeners_onToggleClick_frame _ p

lemma clicks_frame (n : Nat) (p : Page) :
    clickListenerCount (clicks n p) = clickListenerCount p ∧
    (HasIcon p → HasIcon (clicks n p)) := by
  induction n with
  | zero => exact ⟨rfl, id⟩
  | succ n ih =>
    exact ⟨(click_frame _).1.trans ih.1, fun h => (click_frame _).2 (ih.2 h)⟩

/-- A click that completes on a page with the icon and a listener attached
ends with the icon redrawn. -/
lemma click_consistent (p : Page) (hi : HasIcon p) (hl : 1 ≤ clickListenerCount p)
    (hc : clickCompletes p = true) : IconConsistent (click p) := by
  obtain ⟨btn, iconEl, hb, hic⟩ := hi
  obtain ⟨m, hm⟩ : ∃ m, btn.clickListeners = m + 1 :=
    ⟨btn.clickListeners - 1, by simp [clickListenerCount, hb] at hl; omega⟩
  simp only [clickCompletes, hb, hm] at hc
  simp only [click, hb, hm]
  exact runListeners_onToggleClick_consistent m p ⟨btn, iconEl, hb, hic⟩ hc

lemma initUI_eq (p : Page) (btn : Button) (hb : p.toggle = some btn) :
    initUI p = .normal (addClickListener (updateIcon p).page) := by
  obtain ⟨q, hq⟩ := updateIcon_normal p
  simp [initUI, hb, hq, Completion.andThen, Completion.page]

lemma addClickListener_frame (p : Page) :
    (addClickListener p).dataTheme = p.dataTheme ∧
    (addClickListener p).localStorage = p.localStorage ∧
    iconGlyph (addClickListener p) = iconGlyph p ∧
    (HasIcon p → HasIcon (addClickListener p) ∧
      clickListenerCount (addClickListener p) = clickListenerCount p + 1) := by
  refine ⟨rfl, rfl, ?_, ?_⟩
  · cases hb : p.toggle <;> simp [iconGlyph, addClickListener, hb]
  · rintro ⟨btn, iconEl, hb, hi⟩
    exact ⟨⟨{ btn with clickListeners := btn.clickListeners + 1 }, iconEl,
      by simp [addClickListener, hb], hi⟩, by simp [clickListenerCount, addClickListener, hb]⟩

/-- What `initUI` leaves on a page with button and icon: the icon redrawn and
one more click listener. -/
lemma initUI_ready (p : Page) (hi : HasIcon p) :
    HasIcon (initUI p).page ∧ IconConsistent (initUI p).page ∧
    clickListenerCount (initUI p).page = clickListenerCount p + 1 := by
  obtain ⟨btn, iconEl, hb, hic⟩ := hi
  have hi : HasIcon p := ⟨btn, iconEl, hb, hic⟩
  rw [initUI_eq p btn hb]
  have hf := addClickListener_frame (updateIcon p).page
  have hu := updateIcon_consistent p hi
  obtain ⟨h1, h2⟩ := hf.2.2.2 (updateIcon_hasIcon p hi)
  refine ⟨h1, ?_, by rw [Completion.page, h2, (updateIcon_listeners p).1]⟩
  unfold IconConsistent at hu ⊢
  rw [Completion.page, hf.2.2.1, hf.1]
  exact hu

lemma initUI_dataTheme (p : Page) : (initUI p).page.dataTheme = p.dataTheme := by
  cases hb : p.toggle with
  | none => simp [initUI, hb, Completion.page]
  | some btn =>
    rw [initUI_eq p btn hb]
    exact updateIcon_dataTheme p

lemma initUI_localStorage (p : Page) : (initUI p).page.localStorage = p.localStorage := by
  cases hb : p.toggle with
  | none => simp [initUI, hb, Completion.page]
  | some btn =>
    rw [initUI_eq p btn hb]
    exact updateIcon_localStorage p

/-- After `initUI`, and after every later click that completes, the icon
agrees with the attribute, whatever happened on the clicks in between. -/
lemma initUI_clicks_consistent (p : Page) (hi : HasIcon p) (n : Nat) :
    IconConsistent (initUI p).page ∧
    (clickCompletes (clicks n (initUI p).page) = true →
      IconConsistent (clicks (n + 1) (initUI p).page)) := by
  obtain ⟨h1, h2, h3⟩ := initUI_ready p hi
  refine ⟨h2, fun hc => ?_⟩
  have hf := clicks_frame n (initUI p).page
  exact click_consistent _ (hf.2 h1) (by rw [hf.1, h3]; omega) hc

/-! ## Page views -/

lemma initEarly_of_blocked (p : Page) (h : p.localStorage = none) : initEarly p = .thrown p := by
  simp [initEarly, localStorageGetItem, h]

lemma initEarly_of_readable (p : Page) (storage : Storage) (h : p.localStorage = some storage) :
    initEarly p =
      if getItem storage.items STORAGE_KEY = some "dark" then
        .normal { p with dataTheme := some "dark" }
      else .normal p := by
  simp [initEarly, localStorageGetItem, h]

lemma initTheme_of_storage (storage : Storage) (served : Option (Option IconEl)) :
    ∃ q, initTheme (freshLoad (some storage) served) = .normal q ∧
      q.localStorage = some storage ∧ q.toggle = (freshLoad (some storage) served).toggle ∧
      q.domContentLoadedListeners = 1 := by
  by_cases hg : getItem storage.items STORAGE_KEY = some "dark"
  · refine ⟨{ freshLoad (some storage) served with
      dataTheme := some "dark", domContentLoadedListeners := 1 }, ?_, rfl, rfl, rfl⟩
    rw [initTheme, initEarly_of_readable (freshLoad (some storage) served) storage rfl]
    simp [freshLoad, hg, Completion.andThen]
  · refine ⟨{ freshLoad (some storage) served with domContentLoadedListeners := 1 },
      ?_, rfl, rfl, rfl⟩
    rw [initTheme, initEarly_of_readable (freshLoad (some storage) served) storage rfl]
    simp [freshLoad, hg, Completion.andThen]

/-- With storage blocked the script aborts at its first statement, so no
listener is ever installed: the `DOMContentLoaded` event and any number of
clicks leave the freshly loaded page as it is. -/
lemma blocked_page_view_inert (served : Option (Option IconEl)) (n : Nat) :
    clicks n (domContentLoaded (initTheme (freshLoad none served)).page) =
      freshLoad none served := by
  have ht : initTheme (freshLoad none served) = .thrown (freshLoad none served) := by
    rw [initTheme, initEarly_of_blocked (freshLoad none served) rfl]
    rfl
  rw [ht]
  have hd : domContentLoaded (Completion.thrown (freshLoad none served)).page =
      freshLoad none served := rfl
  rw [hd]
  induction n with
  | zero => rfl
  | succ n ih =>
    show click (clicks n (freshLoad none served)) = _
    rw [ih]
    cases served <;> rfl

/-! ## The claims -/

/-- C1, as stated, fails: in a browser that lets the page read storage but
refuses the write, one run of the click listener from light sets the root
attribute to `dark` and then `setItem` throws, so nothing is stored under
`loglens-theme`. -/
theorem stored_value_missing_after_refused_write :
    fullStorePage.dataTheme ≠ some "dark" ∧
    (handlerRuns 1 fullStorePage).dataTheme = some "dark" ∧
    storedTheme (handlerRuns 1 fullStorePage) = none ∧
    storedTheme (handlerRuns 1 fullStorePage) ≠ some "dark" := by
  decide

/-- C1, amended: from any state whose root `data-theme` attribute is not
`dark`, after `N` runs of the click listener the attribute is `dark` iff `N`
is odd, and is absent when `N` is even and at least 1; and the value stored
under `loglens-theme` after run number `N + 1` is `dark` for odd `N + 1` and
`light` for even `N + 1` when that run completed, and is what it was before
that run when its `setItem` threw. -/
theorem toggle_parity (p : Page) (hlight : p.dataTheme ≠ some "dark") (N : Nat) :
    ((handlerRuns N p).dataTheme = some "dark" ↔ N % 2 = 1) ∧
    (N % 2 = 0 → 1 ≤ N → (handlerRuns N p).dataTheme = none) ∧
    storedTheme (handlerRuns (N + 1) p) =
      if (onToggleClick (handlerRuns N p)).isNormal then
        some (if (N + 1) % 2 = 1 then "dark" else "light")
      else storedTheme (handlerRuns N p) := by
  have hd := handlerRuns_dataTheme p hlight N
  refine ⟨?_, ?_, ?_⟩
  · rw [hd]
    by_cases h1 : N % 2 = 1
    · simp [h1]
    · by_cases h0 : N = 0
      · simp [h0, hlight]
      · simp [h1, h0]
  · intro h0 h1
    rw [hd]
    have : ¬ N % 2 = 1 := by omega
    have hN : N ≠ 0 := by omega
    simp [this, hN]
  · show storedTheme (onToggleClick (handlerRuns N p)).page = _
    rw [onToggleClick_storedTheme, handlerRuns_isDark p hlight N]
    rcases Nat.mod_two_eq_zero_or_one N with h0 | h1
    · have hs : (N + 1) % 2 = 1 := by omega
      have h0' : ¬ N % 2 = 1 := by omega
      simp [hs, h0']
    · have hs : ¬ (N + 1) % 2 = 1 := by omega
      simp [hs, h1]

/-- Witness of amended C1 at a page with a stray attribute: the third run
completes and leaves `dark` stored. -/
theorem toggle_parity_witness :
    strayPage.dataTheme ≠ some "dark" ∧
    (onToggleClick (handlerRuns 2 strayPage)).isNormal = true ∧
    (handlerRuns 3 strayPage).dataTheme = some "dark" ∧
    storedTheme (handlerRuns 3 strayPage) = some "dark" := by
  have h := toggle_parity strayPage (by decide) 2
  have h3 := toggle_parity strayPage (by decide) 3
  have hn : (onToggleClick (handlerRuns 2 strayPage)).isNormal = true := by decide
  refine ⟨by decide, hn, h3.1.mpr (by decide), ?_⟩
  rw [h.2.2, hn]
  rfl

/-- C2, as stated, fails: one click from light in a browser that refuses the
write does not produce a state with `dark` stored, and the reload that follows
stays light after `initEarly`. -/
theorem round_trip_lost_after_refused_write :
    fullStorePage.dataTheme ≠ some "dark" ∧
    (onToggleClick fullStorePage).page.dataTheme = some "dark" ∧
    storedTheme (onToggleClick fullStorePage).page ≠ some "dark" ∧
    (initEarly (reload (some (some { innerHTML := "🌙", transform := "" }))
      (onToggleClick fullStorePage).page)).page.dataTheme = none := by
  decide

/-- C2, amended: persistence round trip.  Whenever the value stored under
`loglens-theme` is `dark`, a fresh page load followed by `initEarly` completes
with the root attribute `dark` and every other part of the page (stored value,
icon, listeners) as the load left it; and one click from a non-dark page
produces such a stored value when it completes, that is when its `setItem`
does not throw. -/
theorem persistence_round_trip (p : Page) (served : Option (Option IconEl))
    (h : storedTheme p = some "dark") :
    initEarly (reload served p) = .normal { reload served p with dataTheme := some "dark" } ∧
    storedTheme (initEarly (reload served p)).page = storedTheme p ∧
    iconGlyph (initEarly (reload served p)).page = iconGlyph (reload served p) ∧
    iconTransform (initEarly (reload served p)).page = iconTransform (reload served p) ∧
    (∀ p0 : Page, p0.dataTheme ≠ some "dark" → (onToggleClick p0).isNormal = true →
      storedTheme (onToggleClick p0).page = some "dark") := by
  have key : initEarly (reload served p) =
      .normal { reload served p with dataTheme := some "dark" } := by
    cases hst : p.localStorage with
    | none => simp [storedTheme, hst] at h
    | some storage =>
      have hg : getItem storage.items STORAGE_KEY = some "dark" := by
        simpa [storedTheme, hst] using h
      rw [initEarly_of_readable (reload served p) storage (by simp [reload, freshLoad, hst])]
      simp [hg]
  refine ⟨key, ?_, ?_, ?_, ?_⟩
  · rw [key]; rfl
  · rw [key]; rfl
  · rw [key]; rfl
  · intro p0 hl hn
    have hd : isDark p0 = false := by simp [isDark, hl]
    rw [onToggleClick_storedTheme, hn, hd]
    rfl

/-- Witness of amended C2 at the state one completed click from the light
page produces. -/
theorem persistence_round_trip_witness :
    storedTheme (onToggleClick lightPage).page = some "dark" ∧
    (initEarly (reload (some (some { innerHTML := "🌙", transform := "" }))
        (onToggleClick lightPage).page)).page.dataTheme = some "dark" := by
  refine ⟨by decide, ?_⟩
  rw [(persistence_round_trip (onToggleClick lightPage).page
    (some (some { innerHTML := "🌙", transform := "" })) (by decide)).1]
  rfl

/-- C3: when storage is accessible and the value stored under `loglens-theme`
is absent or anything other than exactly `dark`, `initEarly` completes without
changing the page; on a fresh load the root attribute is still absent and the
stored value is what it was. -/
theorem initEarly_no_action (p : Page) (hs : p.localStorage.isSome)
    (h : storedTheme p ≠ some "dark") :
    initEarly p = .normal p ∧
    ∀ served, initEarly (reload served p) = .normal (reload served p) ∧
      (initEarly (reload served p)).page.dataTheme = none ∧
      storedTheme (initEarly (reload served p)).page = storedTheme p := by
  obtain ⟨storage, hst⟩ := Option.isSome_iff_exists.mp hs
  have hg : getItem storage.items STORAGE_KEY ≠ some "dark" := by
    simpa [storedTheme, hst] using h
  have key : ∀ served, initEarly (reload served p) = .normal (reload served p) := by
    intro served
    rw [initEarly_of_readable (reload served p) storage (by simp [reload, freshLoad, hst])]
    simp [hg]
  refine ⟨by rw [initEarly_of_readable p storage hst]; simp [hg],
    fun served => ⟨key served, ?_, ?_⟩⟩
  · rw [key]; rfl
  · rw [key]; rfl

/-- Witness of C3 at a page whose stored value is `sepia`. -/
theorem initEarly_no_action_witness :
    strayPage.localStorage.isSome ∧ storedTheme strayPage ≠ some "dark" ∧
    (initEarly strayPage = .normal strayPage ∧
     ∀ served, initEarly (reload served strayPage) = .normal (reload served strayPage) ∧
      (initEarly (reload served strayPage)).page.dataTheme = none ∧
      storedTheme (initEarly (reload served strayPage)).page = storedTheme strayPage) :=
  ⟨by decide, by decide, initEarly_no_action strayPage (by decide) (by decide)⟩

/-- C4, as stated, fails: on a page with button and icon in a browser that
refuses the write, after `initUI` and one click the root attribute is `dark`
while the icon still shows the moon, because `setItem` threw before
`updateIcon` was reached. -/
theorem icon_stale_after_refused_write :
    HasIcon fullStoreReady ∧
    (clicks 1 (initUI fullStoreReady).page).dataTheme = some "dark" ∧
    iconGlyph (clicks 1 (initUI fullStoreReady).page) = some moonGlyph ∧
    ¬ ((iconGlyph (clicks 1 (initUI fullStoreReady).page) = some sunGlyph ↔
      (clicks 1 (initUI fullStoreReady).page).dataTheme = some "dark") ∧
    ((clicks 1 (initUI fullStoreReady).page).dataTheme ≠ some "dark" →
      iconGlyph (clicks 1 (initUI fullStoreReady).page) = some moonGlyph)) := by
  have h1 : (clicks 1 (initUI fullStoreReady).page).dataTheme = some "dark" := by decide
  have h2 : iconGlyph (clicks 1 (initUI fullStoreReady).page) = some moonGlyph := by decide
  refine ⟨⟨_, _, rfl, rfl⟩, h1, h2, fun hc => ?_⟩
  have := hc.1.mpr h1
  rw [h2] at this
  exact absurd this (by decide)

/-- C4, amended: with the toggle and its icon present, from every starting
state, immediately after `initUI`, and immediately after every later click
that completes (none of its `setItem` calls throws), whatever happened on the
clicks before it, the icon shows the sun iff the root attribute is `dark`, and
the moon otherwise. -/
theorem icon_consistent_after_clicks (p : Page) (hi : HasIcon p) (N : Nat) :
    ((iconGlyph (initUI p).page = some sunGlyph ↔ (initUI p).page.dataTheme = some "dark") ∧
      ((initUI p).page.dataTheme ≠ some "dark" →
        iconGlyph (initUI p).page = some moonGlyph)) ∧
    (clickCompletes (clicks N (initUI p).page) = true →
      (iconGlyph (clicks (N + 1) (initUI p).page) = some sunGlyph ↔
        (clicks (N + 1) (initUI p).page).dataTheme = some "dark") ∧
      ((clicks (N + 1) (initUI p).page).dataTheme ≠ some "dark" →
        iconGlyph (clicks (N + 1) (initUI p).page) = some moonGlyph)) :=
  initUI_clicks_consistent p hi N

/-- Witness of amended C4 at a first load with a stale served icon: the third
click completes there. -/
theorem icon_consistent_after_clicks_witness :
    HasIcon staleIconLoad ∧
    clickCompletes (clicks 2 (initUI staleIconLoad).page) = true ∧
    (iconGlyph (clicks 3 (initUI staleIconLoad).page) = some sunGlyph ↔
      (clicks 3 (initUI staleIconLoad).page).dataTheme = some "dark") ∧
    ((clicks 3 (initUI staleIconLoad).page).dataTheme ≠ some "dark" →
      iconGlyph (clicks 3 (initUI staleIconLoad).page) = some moonGlyph) :=
  ⟨⟨_, _, rfl, rfl⟩, by decide,
    (icon_consistent_after_clicks staleIconLoad ⟨_, _, rfl, rfl⟩ 2).2 (by decide)⟩

/-- C5: whenever a run of the click listener completes, in the state it ends
in the stored value is `dark` exactly when the root attribute is `dark`, and
`light` exactly when the attribute is absent, whatever the prior state. -/
theorem click_persisted_agrees_applied (p q : Page) (h : onToggleClick p = .normal q) :
    (storedTheme q = some "dark" ↔ q.dataTheme = some "dark") ∧
    (storedTheme q = some "light" ↔ q.dataTheme = none) := by
  obtain ⟨hn, hq⟩ := completion_of_eq_normal _ _ h
  have h1 := onToggleClick_storedTheme p
  have h2 := onToggleClick_dataTheme p
  rw [hq] at h1 h2
  rw [hn] at h1
  rw [h1, h2]
  cases isDark p <;> simp

/-- Witness of C5 at a dark page whose stored value said `light`; the listener
does complete there. -/
theorem click_persisted_agrees_applied_witness :
    onToggleClick mismatchedPage = .normal (onToggleClick mismatchedPage).page ∧
    ((storedTheme (onToggleClick mismatchedPage).page = some "dark" ↔
      (onToggleClick mismatchedPage).page.dataTheme = some "dark") ∧
    (storedTheme (onToggleClick mismatchedPage).page = some "light" ↔
      (onToggleClick mismatchedPage).page.dataTheme = none)) :=
  ⟨by decide, click_persisted_agrees_applied mismatchedPage _ (by decide)⟩

/-- C6: without an element `theme-toggle`, `initUI` completes normally and
leaves the whole page as it was: stored value and root attribute unchanged, no
icon rendered, no click listener attached. -/
theorem initUI_missing_control (p : Page) (h : p.toggle = none) :
    initUI p = .normal p ∧
    storedTheme (initUI p).page = storedTheme p ∧
    (initUI p).page.dataTheme = p.dataTheme ∧
    iconGlyph (initUI p).page = none ∧
    clickListenerCount (initUI p).page = 0 := by
  have key : initUI p = .normal p := by simp [initUI, h]
  rw [key]
  simp [Completion.page, iconGlyph, clickListenerCount, h]

/-- Witness of C6 at a page variant without the button. -/
theorem initUI_missing_control_witness :
    togglelessPage.toggle = none ∧
    (initUI togglelessPage = .normal togglelessPage ∧
    storedTheme (initUI togglelessPage).page = storedTheme togglelessPage ∧
    (initUI togglelessPage).page.dataTheme = togglelessPage.dataTheme ∧
    iconGlyph (initUI togglelessPage).page = none ∧
    clickListenerCount (initUI togglelessPage).page = 0) :=
  ⟨rfl, initUI_missing_control togglelessPage rfl⟩

/-- C7, as stated, fails: in a browser that blocks storage the read in
`initEarly` throws and nothing catches it, so `initEarly` does not complete
normally. -/
theorem initEarly_blocked_throws :
    blockedLoad.localStorage = none ∧
    initEarly blockedLoad = .thrown blockedLoad ∧
    ¬ ∃ q, initEarly blockedLoad = .normal q := by
  refine ⟨rfl, by decide, ?_⟩
  rintro ⟨q, hq⟩
  have h : initEarly blockedLoad = .thrown blockedLoad := by decide
  rw [h] at hq
  cases hq

/-- C7, amended: when access to storage throws, `initEarly` ends by that
exception with the page untouched, the whole script `initTheme` ends the same
way (so no `DOMContentLoaded` listener is registered and the event changes
nothing), and on a fresh load the root attribute stays absent. -/
theorem initEarly_blocked_storage (p : Page) (h : p.localStorage = none) :
    initEarly p = .thrown p ∧
    initTheme p = .thrown p ∧
    ∀ served, (initEarly (reload served p)).page.dataTheme = none ∧
      domContentLoaded (initTheme (reload served p)).page = reload served p := by
  have key : ∀ q : Page, q.localStorage = none → initEarly q = .thrown q :=
    initEarly_of_blocked
  refine ⟨key p h, by simp [initTheme, key p h, Completion.andThen], fun served => ?_⟩
  have hr : (reload served p).localStorage = none := by simp [reload, freshLoad, h]
  have ht : initTheme (reload served p) = .thrown (reload served p) := by
    simp [initTheme, key _ hr, Completion.andThen]
  rw [key _ hr, ht]
  exact ⟨rfl, rfl⟩

/-- Witness of amended C7 at a first load with storage blocked. -/
theorem initEarly_blocked_storage_witness :
    blockedLoad.localStorage = none ∧
    (initEarly blockedLoad = .thrown blockedLoad ∧
    initTheme blockedLoad = .thrown blockedLoad ∧
    ∀ served, (initEarly (reload served blockedLoad)).page.dataTheme = none ∧
      domContentLoaded (initTheme (reload served blockedLoad)).page =
        reload served blockedLoad) :=
  ⟨rfl, initEarly_blocked_storage blockedLoad rfl⟩

/-- C8, as stated, fails twice.  On a first load with `dark` stored and the
moon served as icon markup, the state after `initEarly` (and after the whole of
`initTheme`), before `initUI` has run, has the root attribute `dark` while the
icon still shows the moon.  And on a first load in a browser that refuses the
write, after `initTheme`, `initUI` and one click the attribute is `dark` while
the icon still shows the moon. -/
theorem icon_stale_before_initUI :
    (initEarly darkStoredLoad).page.dataTheme = some "dark" ∧
    iconGlyph (initEarly darkStoredLoad).page = some moonGlyph ∧
    ¬ IconConsistent (initEarly darkStoredLoad).page ∧
    ¬ IconConsistent (initTheme darkStoredLoad).page ∧
    (clicks 1 (domContentLoaded (initTheme fullStoreLoad).page)).dataTheme = some "dark" ∧
    iconGlyph (clicks 1 (domContentLoaded (initTheme fullStoreLoad).page)) = some moonGlyph ∧
    ¬ IconConsistent (clicks 1 (domContentLoaded (initTheme fullStoreLoad).page)) := by
  have h1 : (initEarly darkStoredLoad).page.dataTheme = some "dark" := by decide
  have h2 : iconGlyph (initEarly darkStoredLoad).page = some moonGlyph := by decide
  have h3 : (initTheme darkStoredLoad).page.dataTheme = some "dark" := by decide
  have h4 : iconGlyph (initTheme darkStoredLoad).page = some moonGlyph := by decide
  have h5 : (clicks 1 (domContentLoaded (initTheme fullStoreLoad).page)).dataTheme =
      some "dark" := by decide
  have h6 : iconGlyph (clicks 1 (domContentLoaded (initTheme fullStoreLoad).page)) =
      some moonGlyph := by decide
  refine ⟨h1, h2, ?_, ?_, h5, h6, ?_⟩
  · intro hc
    have := hc.1.mpr h1
    rw [h2] at this
    exact absurd this (by decide)
  · intro hc
    have := hc.1.mpr h3
    rw [h4] at this
    exact absurd this (by decide)
  · intro hc
    have := hc.1.mpr h5
    rw [h6] at this
    exact absurd this (by decide)

/-- C8, amended: on a page view that starts from a fresh load (any stored
contents, any room left in storage, any served icon markup, icon element
present), once `initTheme` and the `DOMContentLoaded` listener `initUI` have
run, and after every later click that completes (its `setItem` does not
throw), the icon shows the sun exactly when the root attribute is `dark` and
the moon otherwise. -/
theorem icon_consistent_page_view (storage : Storage) (iconEl : IconEl) (N : Nat) :
    IconConsistent
      (domContentLoaded (initTheme (freshLoad (some storage) (some (some iconEl)))).page) ∧
    (clickCompletes (clicks N
        (domContentLoaded (initTheme (freshLoad (some storage) (some (some iconEl)))).page)) =
        true →
      IconConsistent (clicks (N + 1)
        (domContentLoaded (initTheme (freshLoad (some storage) (some (some iconEl)))).page))) := by
  obtain ⟨q, hq, _, ht, hl⟩ := initTheme_of_storage storage (some (some iconEl))
  rw [hq]
  have hdom : domContentLoaded (Completion.normal q).page = (initUI q).page := by
    simp [domContentLoaded, Completion.page, hl, runListeners]
  rw [hdom]
  exact initUI_clicks_consistent q ⟨_, iconEl, by rw [ht]; rfl, rfl⟩ N

/-- Witness of amended C8 on the first load with `dark` stored: the first
click completes and leaves the moon on a light page. -/
theorem icon_consistent_page_view_witness :
    clickCompletes (clicks 0 (domContentLoaded (initTheme (freshLoad
      (some { items := [("loglens-theme", "dark")], quota := 5000000 })
      (some (some { innerHTML := "🌙", transform := "rotate(0deg)" })))).page)) = true ∧
    IconConsistent (clicks 1 (domContentLoaded (initTheme (freshLoad
      (some { items := [("loglens-theme", "dark")], quota := 5000000 })
      (some (some { innerHTML := "🌙", transform := "rotate(0deg)" })))).page)) :=
  ⟨by decide, (icon_consistent_page_view
    { items := [("loglens-theme", "dark")], quota := 5000000 }
    { innerHTML := "🌙", transform := "rotate(0deg)" } 0).2 (by decide)⟩

/-- C9: `initUI` and `updateIcon` never change the root `data-theme` attribute
or the contents of storage; `updateIcon` moreover leaves the listeners and the
presence of the button and of its icon as they were, so all it can change is
the icon's glyph and transform. -/
theorem theme_changes_only_on_click (p : Page) :
    ((initUI p).page.dataTheme = p.dataTheme ∧
      (initUI p).page.localStorage = p.localStorage ∧
      storedTheme (initUI p).page = storedTheme p) ∧
    ((updateIcon p).page.dataTheme = p.dataTheme ∧
      (updateIcon p).page.localStorage = p.localStorage ∧
      storedTheme (updateIcon p).page = storedTheme p) ∧
    (clickListenerCount (updateIcon p).page = clickListenerCount p ∧
      (updateIcon p).page.domContentLoadedListeners = p.domContentLoadedListeners ∧
      (updateIcon p).page.toggle.isSome = p.toggle.isSome ∧
      (iconGlyph (updateIcon p).page).isSome = (iconGlyph p).isSome) := by
  refine ⟨⟨initUI_dataTheme p, initUI_localStorage p, ?_⟩,
    ⟨updateIcon_dataTheme p, updateIcon_localStorage p, ?_⟩,
    (updateIcon_listeners p).1, (updateIcon_listeners p).2, ?_, ?_⟩
  · simp [storedTheme, initUI_localStorage]
  · simp [storedTheme, updateIcon_localStorage]
  · unfold updateIcon
    split
    · rfl
    · next btn hb => split <;> simp [Completion.page, hb]
  · unfold updateIcon
    split
    · rfl
    · next btn hb =>
      split
      · rfl
      · next iconEl hi => simp [Completion.page, iconGlyph, hb, hi]

/-- C10: when the toggle exists without a `.theme-icon` descendant,
`updateIcon` completes normally and changes nothing, while a run of the click
listener still flips the root attribute and hands the new value to `setItem`,
which stores it unless it throws; attribute, storage contents, stored value
and the way the listener ends are the same as on the page that differs only by
having an icon. -/
theorem missing_icon_click (p : Page) (btn : Button) (hb : p.toggle = some btn)
    (hi : btn.icon = none) :
    updateIcon p = .normal p ∧
    (onToggleClick p).page.dataTheme = (if p.dataTheme = some "dark" then none else some "dark") ∧
    storedTheme (onToggleClick p).page =
      (if (onToggleClick p).isNormal then
        some (if p.dataTheme = some "dark" then "light" else "dark")
      else storedTheme p) ∧
    ∀ iconEl : IconEl,
      (onToggleClick p).page.dataTheme =
        (onToggleClick { p with toggle := some { btn with icon := some iconEl } }).page.dataTheme ∧
      (onToggleClick p).page.localStorage =
        (onToggleClick { p with toggle := some { btn with icon := some iconEl } }).page.localStorage ∧
      storedTheme (onToggleClick p).page =
        storedTheme (onToggleClick { p with toggle := some { btn with icon := some iconEl } }).page ∧
      ((∃ q, onToggleClick p = .normal q) ↔
        ∃ q, onToggleClick { p with toggle := some { btn with icon := some iconEl } } = .normal q) := by
  refine ⟨by simp [updateIcon, hb, hi], ?_, ?_, ?_⟩
  · rw [onToggleClick_dataTheme]
    by_cases hd : p.dataTheme = some "dark" <;> simp [isDark, hd]
  · rw [onToggleClick_storedTheme]
    by_cases hd : p.dataTheme = some "dark" <;> simp [isDark, hd]
  · intro iconEl
    have hc := onToggleClick_congr p { p with toggle := some { btn with icon := some iconEl } }
      rfl rfl
    refine ⟨?_, hc.1, ?_, ?_⟩
    · rw [onToggleClick_dataTheme, onToggleClick_dataTheme]
      rfl
    · simp only [storedTheme, hc.1]
    · constructor
      · rintro ⟨q, hq⟩
        exact ⟨_, completion_eq_normal _ (hc.2 ▸ (completion_of_eq_normal _ _ hq).1)⟩
      · rintro ⟨q, hq⟩
        exact ⟨_, completion_eq_normal _ (hc.2 ▸ (completion_of_eq_normal _ _ hq).1)⟩

/-- Witness of C10 at a page serving the button without an icon. -/
theorem missing_icon_click_witness :
    iconlessPage.toggle = some { icon := none, clickListeners := 1 } ∧
    updateIcon iconlessPage = .normal iconlessPage ∧
    (onToggleClick iconlessPage).page.dataTheme = some "dark" ∧
    storedTheme (onToggleClick iconlessPage).page = some "dark" := by
  have h := missing_icon_click iconlessPage { icon := none, clickListeners := 1 } rfl rfl
  refine ⟨rfl, h.1, ?_, ?_⟩
  · rw [h.2.1]; decide
  · rw [h.2.2.1]; decide

end LogLens
